import Mathlib

/-!
Verification development for the `nautobot-plugin-device-lifecycle-mgmt`
"Get Device OS Version" job
(`nautobot_device_lifecycle_mgmt/jobs/get_os_version.py`).

The job selects devices by optional form criteria (`get_job_filter`),
queries each device for its running OS version (`get_os_version`),
gets or creates a `SoftwareLCM` record (`get_or_create_software_obj`),
and reconciles the device-to-software `RelationshipAssociation`
(`create_rel`).  The Django ORM stores are shallowly embedded as Lean
lists of records; querysets become list filters, `delete()` on a
queryset removes every matching element, `create` appends.
-/

/-- A referenced Nautobot object (tenant, platform, tag, ...) as it appears
in the job's form data: the job reads its primary key (`pk`) or `name`. -/
structure ObjRef where
  pk : Nat
  name : String
deriving DecidableEq, Repr

/-- The `device` form field of `get_job_filter`: absent, a single `Device`
instance (the "single device run all" case), or a queryset of devices. -/
inductive DeviceSel where
  | noneSel : DeviceSel
  | single : ObjRef → DeviceSel
  | multi : List ObjRef → DeviceSel
deriving DecidableEq, Repr

/-- The form input of `get_job_filter` (`FormEntry` fields).  Each
`MultiObjectVar` is a (possibly empty) selection of objects; Python
truthiness of an empty queryset is `List.isEmpty` here. -/
structure JobData where
  tenant_group : List ObjRef
  tenant : List ObjRef
  location : List ObjRef
  role : List ObjRef
  rack : List ObjRef
  rack_group : List ObjRef
  manufacturer : List ObjRef
  device_type : List ObjRef
  platform : List ObjRef
  device : DeviceSel
  tags : List ObjRef
  status : List ObjRef
deriving DecidableEq, Repr

/-- A device record as read by the job: grouping attribute foreign keys
(nullable), tags, status, and the nullable `platform` and `primary_ip4`
fields that the preconditions inspect. -/
structure DeviceRec where
  pk : Nat
  name : String
  tenant_group : Option Nat
  tenant : Option Nat
  location : Option Nat
  role : Option Nat
  rack : Option Nat
  rack_group : Option Nat
  manufacturer : Option Nat
  device_type : Option Nat
  platform : Option Nat
  tags : List String
  status : String
  primary_ip4 : Option String
deriving DecidableEq, Repr

/-- The `query` dict that `get_job_filter` builds and hands to
`DeviceFilterSet`: per criterion, either no constraint (`none`, the key is
absent) or a list of primary keys / names. -/
structure DeviceQuery where
  tenant_group : Option (List Nat)
  tenant : Option (List Nat)
  location : Option (List Nat)
  role : Option (List Nat)
  rack : Option (List Nat)
  rack_group : Option (List Nat)
  manufacturer : Option (List Nat)
  device_type : Option (List Nat)
  platform : Option (List Nat)
  tags : Option (List String)
  status : Option (List String)
  id : Option (List Nat)
deriving DecidableEq, Repr

/-- Models `query[field] = data[field].values_list("pk", flat=True)` guarded by
`if data.get(field):` — an empty selection is falsy and adds no key. -/
def pkConstraint (sel : List ObjRef) : Option (List Nat) :=
  if sel.isEmpty then none else some (sel.map (·.pk))

/-- Models `query[field] = data[field].values_list("name", flat=True)` guarded by
`if data.get(field):`. -/
def nameConstraint (sel : List ObjRef) : Option (List String) :=
  if sel.isEmpty then none else some (sel.map (·.name))

/-- The `device` handling of `get_job_filter`: a single `Device` instance
becomes `{"id": [device.pk]}`; a truthy (nonempty) queryset becomes its
pk list; otherwise no `id` key. -/
def idConstraint : DeviceSel → Option (List Nat)
  | .noneSel => none
  | .single r => some [r.pk]
  | .multi l => if l.isEmpty then none else some (l.map (·.pk))

/-- The `query` dict built by `get_job_filter` from the form data
(`FIELDS_PK` as pk lists, `FIELDS_NAME` as name lists, `device` as ids). -/
def buildQuery (data : JobData) : DeviceQuery :=
  { tenant_group := pkConstraint data.tenant_group
    tenant := pkConstraint data.tenant
    location := pkConstraint data.location
    role := pkConstraint data.role
    rack := pkConstraint data.rack
    rack_group := pkConstraint data.rack_group
    manufacturer := pkConstraint data.manufacturer
    device_type := pkConstraint data.device_type
    platform := pkConstraint data.platform
    tags := nameConstraint data.tags
    status := nameConstraint data.status
    id := idConstraint data.device }

/-- Constraint "attribute is one of the given pks" for a nullable foreign key: an
absent constraint always matches; a null attribute matches no pk list. -/
def fkMatch (c : Option (List Nat)) (v : Option Nat) : Bool :=
  match c with
  | none => true
  | some l =>
    match v with
    | some x => l.contains x
    | none => false

/-- Constraint "some tag of the device is among the requested tag names"; an absent
constraint always matches. -/
def tagsMatch (c : Option (List String)) (tags : List String) : Bool :=
  match c with
  | none => true
  | some names => tags.any (fun t => names.contains t)

/-- Constraint "status name is one of the requested names"; an absent constraint
always matches. -/
def statusMatch (c : Option (List String)) (s : String) : Bool :=
  match c with
  | none => true
  | some names => names.contains s

/-- Constraint "device id is one of the requested ids"; an absent constraint always
matches. -/
def idMatch (c : Option (List Nat)) (pk : Nat) : Bool :=
  match c with
  | none => true
  | some pks => pks.contains pk

/-- Membership semantics of the external `DeviceFilterSet` applied to the
built query: a device matches when it satisfies every supplied
constraint. -/
def queryMatch (q : DeviceQuery) (d : DeviceRec) : Bool :=
  fkMatch q.tenant_group d.tenant_group &&
  fkMatch q.tenant d.tenant &&
  fkMatch q.location d.location &&
  fkMatch q.role d.role &&
  fkMatch q.rack d.rack &&
  fkMatch q.rack_group d.rack_group &&
  fkMatch q.manufacturer d.manufacturer &&
  fkMatch q.device_type d.device_type &&
  fkMatch q.platform d.platform &&
  tagsMatch q.tags d.tags &&
  statusMatch q.status d.status &&
  idMatch q.id d.pk

/-- Models `DeviceFilterSet(data=query).qs` over the device store: the devices
satisfying every supplied constraint of the query. -/
def deviceFilterSet (q : DeviceQuery) (store : List DeviceRec) : List DeviceRec :=
  store.filter (queryMatch q)

/-- The two precondition failures `get_job_filter` can raise
(`NornirNautobotException`), each carrying the names of every offending
device from the filtered queryset. -/
inductive JobFilterError where
  | missingPlatform : List String → JobFilterError
  | missingManagementAddress : List String → JobFilterError
deriving DecidableEq, Repr

/-- Embeds `get_job_filter`: build the query, filter the device store, then fail
with all platform-less devices if any, else fail with all devices lacking
a `primary_ip4` if any, else return the filtered queryset. -/
def get_job_filter (store : List DeviceRec) (data : JobData) :
    Except JobFilterError (List DeviceRec) :=
  let qs := deviceFilterSet (buildQuery data) store
  let devices_no_platform := qs.filter (fun d => d.platform.isNone)
  if devices_no_platform.isEmpty then
    let devices_no_primary_ip := qs.filter (fun d => d.primary_ip4.isNone)
    if devices_no_primary_ip.isEmpty then
      .ok qs
    else
      .error (.missingManagementAddress (devices_no_primary_ip.map (·.name)))
  else
    .error (.missingPlatform (devices_no_platform.map (·.name)))

/-- Written from the spec's words for the Criteria Filter contract, to be
compared with the code path `deviceFilterSet (buildQuery data)`:
logical AND across criterion categories, logical OR of the values within
one multi-valued criterion, absent criteria impose no constraint, and a
direct single-device criterion is an exact-identity constraint. -/
def specCriteriaMatch (data : JobData) (d : DeviceRec) : Bool :=
  (data.tenant_group.isEmpty || fkMatch (some (data.tenant_group.map (·.pk))) d.tenant_group) &&
  (data.tenant.isEmpty || fkMatch (some (data.tenant.map (·.pk))) d.tenant) &&
  (data.location.isEmpty || fkMatch (some (data.location.map (·.pk))) d.location) &&
  (data.role.isEmpty || fkMatch (some (data.role.map (·.pk))) d.role) &&
  (data.rack.isEmpty || fkMatch (some (data.rack.map (·.pk))) d.rack) &&
  (data.rack_group.isEmpty || fkMatch (some (data.rack_group.map (·.pk))) d.rack_group) &&
  (data.manufacturer.isEmpty || fkMatch (some (data.manufacturer.map (·.pk))) d.manufacturer) &&
  (data.device_type.isEmpty || fkMatch (some (data.device_type.map (·.pk))) d.device_type) &&
  (data.platform.isEmpty || fkMatch (some (data.platform.map (·.pk))) d.platform) &&
  (data.tags.isEmpty || d.tags.any (fun t => (data.tags.map (·.name)).contains t)) &&
  (data.status.isEmpty || (data.status.map (·.name)).contains d.status) &&
  (match data.device with
   | .noneSel => true
   | .single r => d.pk == r.pk
   | .multi l => l.isEmpty || (l.map (·.pk)).contains d.pk)

/-- A form input supplying no criteria at all. -/
def emptyJobData : JobData :=
  { tenant_group := [], tenant := [], location := [], role := [], rack := []
    rack_group := [], manufacturer := [], device_type := [], platform := []
    device := .noneSel, tags := [], status := [] }

/-- A `SoftwareLCM` record: primary key, the `version` string observed
from the device (the job passes the collected value, which is absent when
the probe failed), and the `device_platform` foreign key. -/
structure SoftwareLCM where
  pk : Nat
  version : Option String
  device_platform : Option Nat
deriving DecidableEq, Repr

/-- Embeds `SoftwareLCM.objects.get_or_create(version=..., device_platform=...)`
over the software store: return the matching record with `created=false`,
or append a fresh record (database-assigned pk `fresh`) with
`created=true`.  Result: (new store, record, created flag). -/
def get_or_create_software_obj (store : List SoftwareLCM) (os_version : Option String)
    (platform : Option Nat) (fresh : Nat) : List SoftwareLCM × SoftwareLCM × Bool :=
  match store.find? (fun s => s.version == os_version && s.device_platform == platform) with
  | some s => (store, s, false)
  | none =>
    let s : SoftwareLCM := ⟨fresh, os_version, platform⟩
    (store ++ [s], s, true)

/-- A `RelationshipAssociation` row as `create_rel` reads and writes it:
the relationship key, the content types, and the source (software) and
destination (device) primary keys. -/
structure RelAssoc where
  relationship : String
  source_type : String
  source_id : Nat
  destination_type : String
  destination_id : Nat
deriving DecidableEq, Repr

/-- The association row `create_rel` creates for a software/device pair:
relationship `device_soft`, source content type `softwarelcm`, destination
content type `device`. -/
def mkDeviceSoftAssoc (software_pk device_pk : Nat) : RelAssoc :=
  ⟨"device_soft", "softwarelcm", software_pk, "device", device_pk⟩

/-- Terminal outcome of one `create_rel` run, read off its two exits: the
"Created relationship" branch or the "Correct relationship exists"
branch. -/
inductive RelOutcome where
  | created : RelOutcome
  | unchanged : RelOutcome
deriving DecidableEq, Repr

/-- Embeds `CreateSoftwareRel.create_rel`: if no association
(relationship=`device_soft`, destination=device, source=software) exists,
delete every `device_soft` association of the device (if any exist) and
create the intended one; otherwise leave the store untouched. -/
def create_rel (software_pk device_pk : Nat) (assocs : List RelAssoc) :
    List RelAssoc × RelOutcome :=
  let intended_rel := assocs.filter (fun a =>
    a.relationship == "device_soft" && a.destination_id == device_pk &&
      a.source_id == software_pk)
  if intended_rel.isEmpty then
    let actual_rel := assocs.filter (fun a =>
      a.relationship == "device_soft" && a.destination_id == device_pk)
    let afterDelete :=
      if actual_rel.isEmpty then assocs
      else assocs.filter (fun a =>
        !(a.relationship == "device_soft" && a.destination_id == device_pk))
    (afterDelete ++ [mkDeviceSoftAssoc software_pk device_pk], .created)
  else
    (assocs, .unchanged)

/-- The `device_soft` associations of a device in an association store —
what `create_rel` filters with
`relationship=software_rel_obj, destination_id=device_obj.id`. -/
def deviceAssocs (device_pk : Nat) (assocs : List RelAssoc) : List RelAssoc :=
  assocs.filter (fun a =>
    a.relationship == "device_soft" && a.destination_id == device_pk)

/-- Embeds `CreateSoftwareRel.get_os_version`: run the napalm `get_facts` getter
and return its `os_version`; any exception is caught, logged via
`self.logger.error`, and the method falls through returning `None`.  The
injected nornir/napalm probe is modelled by its outcome `facts`: either
the extracted version string or the raised exception's message. -/
def get_os_version (facts : Except String String) : Except String (Option String) :=
  match facts with
  | .ok v => .ok (some v)
  | .error _ => .ok none

/-- The mutable stores touched by one device's pipeline: the `SoftwareLCM`
table and the `RelationshipAssociation` table. -/
structure LCMState where
  software : List SoftwareLCM
  assocs : List RelAssoc
deriving DecidableEq, Repr

/-- Embeds `CreateSoftwareRel.create_software_to_device_rel`, the per-device task:
collect the version (`get_os_version`), get-or-create the software record
for (version, device platform), and reconcile the association.  `facts` is
the probe outcome for this device and `fresh` the pk the database would
assign to a newly created software record. -/
def create_software_to_device_rel (st : LCMState) (device : DeviceRec)
    (facts : Except String String) (fresh : Nat) : Except String (LCMState × RelOutcome) :=
  match get_os_version facts with
  | .error e => .error e
  | .ok os_version =>
    let r := get_or_create_software_obj st.software os_version device.platform fresh
    let rel := create_rel r.2.1.pk device.pk st.assocs
    .ok (⟨r.1, rel.1⟩, rel.2)

/-- A device record used in concrete instances: only `pk`, `name`,
`platform` and `primary_ip4` vary; the grouping attributes are null. -/
def mkDevice (pk : Nat) (name : String) (platform : Option Nat)
    (ip : Option String) : DeviceRec :=
  ⟨pk, name, none, none, none, none, none, none, none, none, platform, [], "active", ip⟩

/-- The uniqueness invariant of the Software Registry: no two records in
the store agree on the (version, platform) pair. -/
def softwarePairUnique (store : List SoftwareLCM) : Prop :=
  store.Pairwise (fun s t => ¬(s.version = t.version ∧ s.device_platform = t.device_platform))

/-- A pre-state violating the at-most-one invariant: device 10 holds
associations to software 1 and to software 2. -/
def c9Assocs : List RelAssoc := [mkDeviceSoftAssoc 1 10, mkDeviceSoftAssoc 2 10]

/-- A software store holding the single record (15.2, platform 7). -/
def c8Store : List SoftwareLCM := [⟨1, some "15.2", some 7⟩]

/-- A store where one device lacks a platform and another lacks a primary
management address. -/
def c5Store : List DeviceRec :=
  [mkDevice 1 "no-platform-device" none (some "10.0.0.1"),
   mkDevice 2 "no-ip-device" (some 3) none]

/-- A store where one device lacks a platform and another (with a
platform) lacks a primary management address. -/
def c6Store : List DeviceRec :=
  [mkDevice 4 "alpha" none (some "10.0.0.4"), mkDevice 5 "beta" (some 9) none]

lemma deviceAssocs_append (d : Nat) (l1 l2 : List RelAssoc) :
    deviceAssocs d (l1 ++ l2) = deviceAssocs d l1 ++ deviceAssocs d l2 :=
  List.filter_append l1 l2

lemma deviceAssocs_mk (s d : Nat) :
    deviceAssocs d [mkDeviceSoftAssoc s d] = [mkDeviceSoftAssoc s d] := by
  simp [deviceAssocs, mkDeviceSoftAssoc]

lemma deviceAssocs_afterDelete (device_pk : Nat) (assocs : List RelAssoc) :
    deviceAssocs device_pk
      (if (assocs.filter (fun a =>
          a.relationship == "device_soft" && a.destination_id == device_pk)).isEmpty then
        assocs
      else assocs.filter (fun a =>
        !(a.relationship == "device_soft" && a.destination_id == device_pk))) = [] := by
  by_cases hA : (assocs.filter (fun a =>
      a.relationship == "device_soft" && a.destination_id == device_pk)).isEmpty
  · rw [if_pos hA]
    exact List.isEmpty_iff.mp hA
  · rw [if_neg hA]
    rw [deviceAssocs, List.filter_eq_nil_iff]
    intro a ha
    have h2 := (List.mem_filter.mp ha).2
    simp only [Bool.not_eq_true', decide_eq_false_iff_not, Bool.and_eq_true, beq_iff_eq,
      not_and] at h2
    simp only [Bool.and_eq_true, beq_iff_eq, not_and]
    intro hr hd
    simp [hr, hd] at h2

lemma mem_afterDelete (device_pk : Nat) (assocs : List RelAssoc) (a : RelAssoc)
    (ha : a ∈ (if (assocs.filter (fun a =>
          a.relationship == "device_soft" && a.destination_id == device_pk)).isEmpty then
        assocs
      else assocs.filter (fun a =>
        !(a.relationship == "device_soft" && a.destination_id == device_pk)))) :
    a ∈ assocs ∧ ¬(a.relationship = "device_soft" ∧ a.destination_id = device_pk) := by
  by_cases hA : (assocs.filter (fun a =>
      a.relationship == "device_soft" && a.destination_id == device_pk)).isEmpty
  · rw [if_pos hA] at ha
    refine ⟨ha, ?_⟩
    have hnil := List.isEmpty_iff.mp hA
    have := List.filter_eq_nil_iff.mp hnil a ha
    simpa [Bool.and_eq_true, beq_iff_eq] using this
  · rw [if_neg hA] at ha
    have h1 := List.mem_filter.mp ha
    refine ⟨h1.1, ?_⟩
    have h2 := h1.2
    simp only [Bool.not_eq_true', decide_eq_false_iff_not, Bool.and_eq_true, beq_iff_eq,
      not_and] at h2
    simp only [not_and]
    intro hr hd
    simp [hr, hd] at h2

lemma create_rel_of_no_intended (software_pk device_pk : Nat) (assocs : List RelAssoc)
    (h : ∀ a ∈ assocs, ¬(a.relationship = "device_soft" ∧ a.destination_id = device_pk ∧
        a.source_id = software_pk)) :
    (create_rel software_pk device_pk assocs).2 = .created ∧
    deviceAssocs device_pk ((create_rel software_pk device_pk assocs).1) =
      [mkDeviceSoftAssoc software_pk device_pk] ∧
    ∀ a ∈ (create_rel software_pk device_pk assocs).1,
      a = mkDeviceSoftAssoc software_pk device_pk ∨
        (a ∈ assocs ∧ ¬(a.relationship = "device_soft" ∧ a.destination_id = device_pk)) := by
  have hQ : assocs.filter (fun a =>
      a.relationship == "device_soft" && a.destination_id == device_pk &&
        a.source_id == software_pk) = [] := by
    rw [List.filter_eq_nil_iff]
    intro a ha
    simp only [Bool.and_eq_true, beq_iff_eq, not_and]
    intro h1 h2
    exact h a ha ⟨h1.1, h1.2, h2⟩
  have hstep : create_rel software_pk device_pk assocs =
      ((if (assocs.filter (fun a =>
            a.relationship == "device_soft" && a.destination_id == device_pk)).isEmpty then
          assocs
        else assocs.filter (fun a =>
          !(a.relationship == "device_soft" && a.destination_id == device_pk))) ++
        [mkDeviceSoftAssoc software_pk device_pk], .created) := by
    simp only [create_rel, hQ, List.isEmpty_nil, if_true]
  rw [hstep]
  refine ⟨rfl, ?_, ?_⟩
  · rw [deviceAssocs_append, deviceAssocs_mk, deviceAssocs_afterDelete]
    rfl
  · intro a ha
    rcases List.mem_append.mp ha with h1 | h1
    · exact Or.inr (mem_afterDelete device_pk assocs a h1)
    · exact Or.inl (List.mem_singleton.mp h1)

lemma create_rel_unchanged_of_mem (software_pk device_pk : Nat) (assocs : List RelAssoc)
    (a : RelAssoc) (ha : a ∈ assocs) (h1 : a.relationship = "device_soft")
    (h2 : a.destination_id = device_pk) (h3 : a.source_id = software_pk) :
    create_rel software_pk device_pk assocs = (assocs, .unchanged) := by
  have hne : assocs.filter (fun a =>
      a.relationship == "device_soft" && a.destination_id == device_pk &&
        a.source_id == software_pk) ≠ [] := by
    intro hnil
    have := List.filter_eq_nil_iff.mp hnil a ha
    simp [h1, h2, h3] at this
  have hF : (assocs.filter (fun a =>
      a.relationship == "device_soft" && a.destination_id == device_pk &&
        a.source_id == software_pk)).isEmpty = false := by
    rcases Bool.eq_false_or_eq_true ((assocs.filter (fun a =>
        a.relationship == "device_soft" && a.destination_id == device_pk &&
          a.source_id == software_pk)).isEmpty) with hb | hb
    · exact absurd (List.isEmpty_iff.mp hb) hne
    · exact hb
  simp [create_rel, hF]

lemma deviceAssocs_mem_of (device_pk : Nat) (assocs : List RelAssoc) (a : RelAssoc)
    (ha : a ∈ assocs) (h1 : a.relationship = "device_soft")
    (h2 : a.destination_id = device_pk) : a ∈ deviceAssocs device_pk assocs :=
  List.mem_filter.mpr ⟨ha, by simp [h1, h2]⟩

/-- C2: if a device has exactly the association to software A among its
`device_soft` associations and reconciliation runs with desired software
B ≠ A, the run creates the new association, the old one is gone from the
store, and exactly one association remains for the device, pointing to
B. -/
theorem claim_C2 (assocs : List RelAssoc) (device_pk a b : Nat) (x : RelAssoc)
    (hx : deviceAssocs device_pk assocs = [x]) (hsrc : x.source_id = a) (hab : a ≠ b) :
    (create_rel b device_pk assocs).2 = .created ∧
    deviceAssocs device_pk ((create_rel b device_pk assocs).1) =
      [mkDeviceSoftAssoc b device_pk] ∧
    x ∉ (create_rel b device_pk assocs).1 := by
  have hno : ∀ a' ∈ assocs, ¬(a'.relationship = "device_soft" ∧
      a'.destination_id = device_pk ∧ a'.source_id = b) := by
    rintro a' ha' ⟨h1, h2, h3⟩
    have hm : a' ∈ deviceAssocs device_pk assocs := deviceAssocs_mem_of device_pk assocs a' ha' h1 h2
    rw [hx] at hm
    have hax : a' = x := List.mem_singleton.mp hm
    rw [hax] at h3
    exact hab (hsrc.symm.trans h3)
  obtain ⟨hc, hd, hmem⟩ := create_rel_of_no_intended b device_pk assocs hno
  refine ⟨hc, hd, ?_⟩
  intro hx_mem
  have hx_in : x ∈ deviceAssocs device_pk assocs := by
    rw [hx]; exact List.mem_singleton.mpr rfl
  have hp := (List.mem_filter.mp hx_in).2
  simp only [Bool.and_eq_true, beq_iff_eq] at hp
  rcases hmem x hx_mem with h1 | h1
  · rw [h1] at hsrc
    exact hab hsrc.symm
  · exact h1.2 hp

/-- C3: starting from a device with no `device_soft` association, running
the reconciler twice with the same desired software creates the
association on the first run (exactly one present afterwards) and the
second run leaves the store untouched with outcome `unchanged`. -/
theorem claim_C3 (assocs : List RelAssoc) (software_pk device_pk : Nat)
    (h : deviceAssocs device_pk assocs = []) :
    (create_rel software_pk device_pk assocs).2 = .created ∧
    deviceAssocs device_pk ((create_rel software_pk device_pk assocs).1) =
      [mkDeviceSoftAssoc software_pk device_pk] ∧
    create_rel software_pk device_pk ((create_rel software_pk device_pk assocs).1) =
      ((create_rel software_pk device_pk assocs).1, .unchanged) := by
  have hno : ∀ a ∈ assocs, ¬(a.relationship = "device_soft" ∧
      a.destination_id = device_pk ∧ a.source_id = software_pk) := by
    rintro a ha ⟨h1, h2, _⟩
    have hm : a ∈ deviceAssocs device_pk assocs := deviceAssocs_mem_of device_pk assocs a ha h1 h2
    rw [h] at hm
    exact absurd hm (List.not_mem_nil a)
  obtain ⟨hc, hd, _⟩ := create_rel_of_no_intended software_pk device_pk assocs hno
  refine ⟨hc, hd, ?_⟩
  have hmk : mkDeviceSoftAssoc software_pk device_pk ∈
      (create_rel software_pk device_pk assocs).1 := by
    have hm : mkDeviceSoftAssoc software_pk device_pk ∈
        deviceAssocs device_pk ((create_rel software_pk device_pk assocs).1) := by
      rw [hd]; exact List.mem_singleton.mpr rfl
    exact (List.mem_filter.mp hm).1
  exact create_rel_unchanged_of_mem software_pk device_pk _ _ hmk rfl rfl rfl

/-- Witness for C2 at a concrete instance: the device 10 is associated to
software 1, reconciliation with software 2 replaces it. -/
theorem claim_C2_witness :
    (create_rel 2 10 [mkDeviceSoftAssoc 1 10]).2 = .created ∧
    deviceAssocs 10 ((create_rel 2 10 [mkDeviceSoftAssoc 1 10]).1) =
      [mkDeviceSoftAssoc 2 10] ∧
    mkDeviceSoftAssoc 1 10 ∉ (create_rel 2 10 [mkDeviceSoftAssoc 1 10]).1 :=
  claim_C2 [mkDeviceSoftAssoc 1 10] 10 1 2 (mkDeviceSoftAssoc 1 10)
    (by decide) (by decide) (by decide)

/-- Witness for C3 at a concrete instance: an empty association store. -/
theorem claim_C3_witness :
    (create_rel 3 7 []).2 = .created ∧
    deviceAssocs 7 ((create_rel 3 7 []).1) = [mkDeviceSoftAssoc 3 7] ∧
    create_rel 3 7 ((create_rel 3 7 []).1) = ((create_rel 3 7 []).1, .unchanged) :=
  claim_C3 [] 3 7 (by decide)

/-- C9 counterexample: with device 10 associated to both software 1 and
software 2, reconciling towards software 2 finds the intended association
and returns without mutating, leaving two associations for the device —
the stale one (to software 1) is not removed. -/
theorem claim_C9_counterexample :
    create_rel 2 10 c9Assocs = (c9Assocs, .unchanged) ∧
    deviceAssocs 10 c9Assocs = [mkDeviceSoftAssoc 1 10, mkDeviceSoftAssoc 2 10] := by
  decide

/-- C9 amended: provided the device has no association to the observed
software beforehand, after the run exactly one `device_soft` association
exists for the device, pointing at the observed software, regardless of
how many (stale) associations existed beforehand; every remaining
association of the device points at the observed software. -/
theorem claim_C9_amended (assocs : List RelAssoc) (software_pk device_pk : Nat)
    (h : ∀ a ∈ assocs, ¬(a.relationship = "device_soft" ∧
        a.destination_id = device_pk ∧ a.source_id = software_pk)) :
    deviceAssocs device_pk ((create_rel software_pk device_pk assocs).1) =
      [mkDeviceSoftAssoc software_pk device_pk] ∧
    ∀ a ∈ (create_rel software_pk device_pk assocs).1,
      a.relationship = "device_soft" → a.destination_id = device_pk →
        a.source_id = software_pk := by
  obtain ⟨_, hd, hmem⟩ := create_rel_of_no_intended software_pk device_pk assocs h
  refine ⟨hd, ?_⟩
  intro a ha h1 h2
  rcases hmem a ha with hcase | hcase
  · rw [hcase]
    rfl
  · exact absurd ⟨h1, h2⟩ hcase.2

/-- Witness for the amended C9: device 10 starts with two stale
associations (to software 5 and 6); reconciling towards software 7 leaves
exactly its association to 7. -/
theorem claim_C9_amended_witness :
    deviceAssocs 10 ((create_rel 7 10 [mkDeviceSoftAssoc 5 10, mkDeviceSoftAssoc 6 10]).1) =
      [mkDeviceSoftAssoc 7 10] ∧
    ∀ a ∈ (create_rel 7 10 [mkDeviceSoftAssoc 5 10, mkDeviceSoftAssoc 6 10]).1,
      a.relationship = "device_soft" → a.destination_id = 10 → a.source_id = 7 :=
  claim_C9_amended [mkDeviceSoftAssoc 5 10, mkDeviceSoftAssoc 6 10] 7 10 (by decide)

/-- C1 counterexample: when the napalm probe raises (here: "unreachable
host"), `get_os_version` completes normally with no version value — it
neither returns an observed version string nor propagates any error. -/
theorem claim_C1_counterexample :
    get_os_version (Except.error "unreachable host") = Except.ok none := rfl

/-- C1 amended: the fact-collection step returns the observed OS-version
string on success; on a probe failure it logs the cause and completes
normally with no version (`none`) instead of propagating an error — it
never raises. -/
theorem claim_C1_amended :
    (∀ v : String, get_os_version (.ok v) = .ok (some v)) ∧
    (∀ e : String, get_os_version (.error e) = .ok none) ∧
    (∀ facts : Except String String, ∃ o, get_os_version facts = .ok o) := by
  refine ⟨fun _ => rfl, fun _ => rfl, fun facts => ?_⟩
  cases facts with
  | ok v => exact ⟨some v, rfl⟩
  | error e => exact ⟨none, rfl⟩

lemma get_or_create_pair (store : List SoftwareLCM) (v : Option String) (p : Option Nat)
    (fresh : Nat) :
    (get_or_create_software_obj store v p fresh).2.1.version = v ∧
    (get_or_create_software_obj store v p fresh).2.1.device_platform = p := by
  cases hf : store.find? (fun s => s.version == v && s.device_platform == p) with
  | some s =>
    have hps := List.find?_some hf
    simp only [Bool.and_eq_true, beq_iff_eq] at hps
    simp only [get_or_create_software_obj, hf]
    exact hps
  | none =>
    simp only [get_or_create_software_obj, hf]
    constructor <;> trivial

/-- C8: `get_or_create_software_obj` returns a record carrying the queried
(version, platform) pair; when a matching record exists the store is
unchanged and that record is returned (`created = false`); when none
exists exactly one record is appended (`created = true`); and the
pair-uniqueness invariant of the store is preserved. -/
theorem claim_C8 (store : List SoftwareLCM) (v : Option String) (p : Option Nat)
    (fresh : Nat) :
    ((get_or_create_software_obj store v p fresh).2.1.version = v ∧
     (get_or_create_software_obj store v p fresh).2.1.device_platform = p) ∧
    ((∃ s ∈ store, s.version = v ∧ s.device_platform = p) →
      (get_or_create_software_obj store v p fresh).1 = store ∧
      (get_or_create_software_obj store v p fresh).2.1 ∈ store ∧
      (get_or_create_software_obj store v p fresh).2.2 = false) ∧
    ((∀ s ∈ store, ¬(s.version = v ∧ s.device_platform = p)) →
      (get_or_create_software_obj store v p fresh).1 = store ++ [⟨fresh, v, p⟩] ∧
      (get_or_create_software_obj store v p fresh).2.2 = true) ∧
    (softwarePairUnique store → softwarePairUnique (get_or_create_software_obj store v p fresh).1) := by
  refine ⟨get_or_create_pair store v p fresh, ?_, ?_, ?_⟩
  · rintro ⟨s, hs, hsv, hsp⟩
    cases hf : store.find? (fun s => s.version == v && s.device_platform == p) with
    | some t =>
      simp only [get_or_create_software_obj, hf]
      exact ⟨by trivial, List.mem_of_find?_eq_some hf, by trivial⟩
    | none =>
      have hno := List.find?_eq_none.mp hf
      have := hno s hs
      simp [hsv, hsp] at this
  · intro hnone
    cases hf : store.find? (fun s => s.version == v && s.device_platform == p) with
    | some t =>
      have hps := List.find?_some hf
      simp only [Bool.and_eq_true, beq_iff_eq] at hps
      exact absurd hps (hnone t (List.mem_of_find?_eq_some hf))
    | none =>
      simp only [get_or_create_software_obj, hf]
      constructor <;> trivial
  · intro hu
    cases hf : store.find? (fun s => s.version == v && s.device_platform == p) with
    | some t =>
      simp only [get_or_create_software_obj, hf]
      exact hu
    | none =>
      have hno := List.find?_eq_none.mp hf
      simp only [get_or_create_software_obj, hf, softwarePairUnique]
      rw [List.pairwise_append]
      refine ⟨hu, List.pairwise_singleton _ _, ?_⟩
      intro s hs t ht
      rw [List.mem_singleton] at ht
      subst ht
      rintro ⟨h1, h2⟩
      have := hno s hs
      simp [h1, h2] at this

/-- Witness for C8: looking up (15.2, 7) in `c8Store` returns the existing
record without mutation; looking up (16.1, 7) appends exactly one record
and preserves pair-uniqueness. -/
theorem claim_C8_witness :
    ((get_or_create_software_obj c8Store (some "15.2") (some 7) 2).1 = c8Store ∧
     (get_or_create_software_obj c8Store (some "15.2") (some 7) 2).2.1 ∈ c8Store ∧
     (get_or_create_software_obj c8Store (some "15.2") (some 7) 2).2.2 = false) ∧
    ((get_or_create_software_obj c8Store (some "16.1") (some 7) 3).1 =
       c8Store ++ [⟨3, some "16.1", some 7⟩] ∧
     (get_or_create_software_obj c8Store (some "16.1") (some 7) 3).2.2 = true) ∧
    softwarePairUnique ((get_or_create_software_obj c8Store (some "16.1") (some 7) 3).1) := by
  refine ⟨(claim_C8 c8Store (some "15.2") (some 7) 2).2.1 ?_,
          (claim_C8 c8Store (some "16.1") (some 7) 3).2.2.1 ?_,
          (claim_C8 c8Store (some "16.1") (some 7) 3).2.2.2 ?_⟩
  · exact ⟨⟨1, some "15.2", some 7⟩, by decide, by decide, by decide⟩
  · decide
  · simp [softwarePairUnique, c8Store]

lemma create_rel_exists_assoc (software_pk device_pk : Nat) (assocs : List RelAssoc) :
    ∃ a ∈ (create_rel software_pk device_pk assocs).1,
      a.relationship = "device_soft" ∧ a.source_id = software_pk ∧
        a.destination_id = device_pk := by
  by_cases hex : ∃ a ∈ assocs, a.relationship = "device_soft" ∧
      a.destination_id = device_pk ∧ a.source_id = software_pk
  · obtain ⟨a, ha, h1, h2, h3⟩ := hex
    rw [create_rel_unchanged_of_mem software_pk device_pk assocs a ha h1 h2 h3]
    exact ⟨a, ha, h1, h3, h2⟩
  · have hno : ∀ a ∈ assocs, ¬(a.relationship = "device_soft" ∧
        a.destination_id = device_pk ∧ a.source_id = software_pk) := by
      intro a ha hc
      exact hex ⟨a, ha, hc⟩
    obtain ⟨_, hd, _⟩ := create_rel_of_no_intended software_pk device_pk assocs hno
    have hmk : mkDeviceSoftAssoc software_pk device_pk ∈
        (create_rel software_pk device_pk assocs).1 := by
      have hm : mkDeviceSoftAssoc software_pk device_pk ∈
          deviceAssocs device_pk ((create_rel software_pk device_pk assocs).1) := by
        rw [hd]; exact List.mem_singleton.mpr rfl
      exact (List.mem_filter.mp hm).1
    exact ⟨mkDeviceSoftAssoc software_pk device_pk, hmk, rfl, rfl, rfl⟩

/-- C10: when the injected fact query raises, the per-device pipeline
continues: the collected version is `none`, the registry get-or-create
runs with version `none` on the device's platform (producing a record
whose version is `none`), and the reconciler runs, leaving an association
from the device to that record. -/
theorem claim_C10 (st : LCMState) (device : DeviceRec) (e : String) (fresh : Nat) :
    ∃ res : LCMState × RelOutcome,
      create_software_to_device_rel st device (.error e) fresh = .ok res ∧
      res.1.software =
        (get_or_create_software_obj st.software none device.platform fresh).1 ∧
      (get_or_create_software_obj st.software none device.platform fresh).2.1.version = none ∧
      res.1.assocs =
        (create_rel (get_or_create_software_obj st.software none device.platform fresh).2.1.pk
          device.pk st.assocs).1 ∧
      ∃ a ∈ res.1.assocs, a.relationship = "device_soft" ∧
        a.source_id =
          (get_or_create_software_obj st.software none device.platform fresh).2.1.pk ∧
        a.destination_id = device.pk := by
  refine ⟨(⟨(get_or_create_software_obj st.software none device.platform fresh).1,
      (create_rel (get_or_create_software_obj st.software none device.platform fresh).2.1.pk
        device.pk st.assocs).1⟩,
      (create_rel (get_or_create_software_obj st.software none device.platform fresh).2.1.pk
        device.pk st.assocs).2), rfl, rfl,
    (get_or_create_pair st.software none device.platform fresh).1, rfl,
    create_rel_exists_assoc _ _ _⟩

lemma fkMatch_pkConstraint (sel : List ObjRef) (v : Option Nat) :
    fkMatch (pkConstraint sel) v = (sel.isEmpty || fkMatch (some (sel.map (·.pk))) v) := by
  cases h : sel.isEmpty <;> simp [pkConstraint, h, fkMatch]

lemma tagsMatch_nameConstraint (sel : List ObjRef) (tags : List String) :
    tagsMatch (nameConstraint sel) tags =
      (sel.isEmpty || tags.any (fun t => (sel.map (·.name)).contains t)) := by
  cases h : sel.isEmpty <;> simp [nameConstraint, h, tagsMatch]

lemma statusMatch_nameConstraint (sel : List ObjRef) (s : String) :
    statusMatch (nameConstraint sel) s =
      (sel.isEmpty || (sel.map (·.name)).contains s) := by
  cases h : sel.isEmpty <;> simp [nameConstraint, h, statusMatch]

lemma idMatch_idConstraint (sel : DeviceSel) (pk : Nat) :
    idMatch (idConstraint sel) pk =
      (match sel with
       | .noneSel => true
       | .single r => pk == r.pk
       | .multi l => l.isEmpty || (l.map (·.pk)).contains pk) := by
  cases sel with
  | noneSel => rfl
  | single r =>
    simp only [idMatch, idConstraint]
    by_cases hp : pk = r.pk
    · subst hp
      simp
    · simp [hp, Ne.symm hp]
  | multi l => cases h : l.isEmpty <;> simp [idMatch, idConstraint, h]

lemma queryMatch_buildQuery (data : JobData) (d : DeviceRec) :
    queryMatch (buildQuery data) d = specCriteriaMatch data d := by
  simp only [queryMatch, buildQuery, specCriteriaMatch, fkMatch_pkConstraint,
    tagsMatch_nameConstraint, statusMatch_nameConstraint, idMatch_idConstraint]

/-- C7: the device set computed by the job (building the query dict from
the form data and running the device filter) is exactly the set of
devices satisfying the AND of all supplied criteria, with OR over the
values of one criterion (`specCriteriaMatch`, written from the spec's
words); supplying no criteria returns the entire device store. -/
theorem claim_C7 :
    (∀ (store : List DeviceRec) (data : JobData),
      deviceFilterSet (buildQuery data) store = store.filter (specCriteriaMatch data)) ∧
    (∀ store : List DeviceRec, deviceFilterSet (buildQuery emptyJobData) store = store) := by
  constructor
  · intro store data
    exact List.filter_congr (fun d _ => queryMatch_buildQuery data d)
  · intro store
    have h1 : store.filter (queryMatch (buildQuery emptyJobData)) =
        store.filter (fun _ => true) :=
      List.filter_congr (fun d _ => rfl)
    rw [deviceFilterSet, h1, List.filter_true]

lemma isEmpty_false_of_ne_nil {α : Type} {l : List α} (h : l ≠ []) : l.isEmpty = false := by
  cases l with
  | nil => exact absurd rfl h
  | cons a t => rfl

lemma get_job_filter_platform_error (store : List DeviceRec) (data : JobData)
    (h : (deviceFilterSet (buildQuery data) store).filter (fun d => d.platform.isNone) ≠ []) :
    get_job_filter store data = .error (.missingPlatform
      (((deviceFilterSet (buildQuery data) store).filter
        (fun d => d.platform.isNone)).map (·.name))) := by
  have hF := isEmpty_false_of_ne_nil h
  simp [get_job_filter, hF]

lemma get_job_filter_ip_error (store : List DeviceRec) (data : JobData)
    (h1 : (deviceFilterSet (buildQuery data) store).filter (fun d => d.platform.isNone) = [])
    (h2 : (deviceFilterSet (buildQuery data) store).filter (fun d => d.primary_ip4.isNone) ≠ []) :
    get_job_filter store data = .error (.missingManagementAddress
      (((deviceFilterSet (buildQuery data) store).filter
        (fun d => d.primary_ip4.isNone)).map (·.name))) := by
  have hF2 := isEmpty_false_of_ne_nil h2
  simp [get_job_filter, h1, hF2]

lemma get_job_filter_ok (store : List DeviceRec) (data : JobData)
    (h1 : (deviceFilterSet (buildQuery data) store).filter (fun d => d.platform.isNone) = [])
    (h2 : (deviceFilterSet (buildQuery data) store).filter (fun d => d.primary_ip4.isNone) = []) :
    get_job_filter store data = .ok (deviceFilterSet (buildQuery data) store) := by
  simp [get_job_filter, h1, h2]

lemma mem_platform_offenders (store : List DeviceRec) (data : JobData) (n : String) :
    n ∈ ((deviceFilterSet (buildQuery data) store).filter
        (fun d => d.platform.isNone)).map (·.name) ↔
      ∃ d ∈ deviceFilterSet (buildQuery data) store, d.platform = none ∧ d.name = n := by
  simp only [List.mem_map, List.mem_filter, Option.isNone_iff_eq_none]
  constructor
  · rintro ⟨d, ⟨hd, hp⟩, hn⟩
    exact ⟨d, hd, hp, hn⟩
  · rintro ⟨d, hd, hp, hn⟩
    exact ⟨d, ⟨hd, hp⟩, hn⟩

lemma mem_ip_offenders (store : List DeviceRec) (data : JobData) (n : String) :
    n ∈ ((deviceFilterSet (buildQuery data) store).filter
        (fun d => d.primary_ip4.isNone)).map (·.name) ↔
      ∃ d ∈ deviceFilterSet (buildQuery data) store, d.primary_ip4 = none ∧ d.name = n := by
  simp only [List.mem_map, List.mem_filter, Option.isNone_iff_eq_none]
  constructor
  · rintro ⟨d, ⟨hd, hp⟩, hn⟩
    exact ⟨d, hd, hp, hn⟩
  · rintro ⟨d, hd, hp, hn⟩
    exact ⟨d, ⟨hd, hp⟩, hn⟩

lemma platform_filter_ne_nil (store : List DeviceRec) (data : JobData)
    (h : ∃ d ∈ deviceFilterSet (buildQuery data) store, d.platform = none) :
    (deviceFilterSet (buildQuery data) store).filter (fun d => d.platform.isNone) ≠ [] := by
  obtain ⟨d0, hd0, hp0⟩ := h
  intro hnil
  have := List.filter_eq_nil_iff.mp hnil d0 hd0
  simp [hp0] at this

lemma ip_filter_ne_nil (store : List DeviceRec) (data : JobData)
    (h : ∃ d ∈ deviceFilterSet (buildQuery data) store, d.primary_ip4 = none) :
    (deviceFilterSet (buildQuery data) store).filter (fun d => d.primary_ip4.isNone) ≠ [] := by
  obtain ⟨d0, hd0, hp0⟩ := h
  intro hnil
  have := List.filter_eq_nil_iff.mp hnil d0 hd0
  simp [hp0] at this

/-- C4: whenever the selected device set contains a device with a null
platform, `get_job_filter` fails with the missing-platform error, and the
devices named in it are exactly the selected devices with a null
platform. -/
theorem claim_C4 (store : List DeviceRec) (data : JobData)
    (h : ∃ d ∈ deviceFilterSet (buildQuery data) store, d.platform = none) :
    ∃ l, get_job_filter store data = .error (.missingPlatform l) ∧
      ∀ n, (n ∈ l ↔
        ∃ d ∈ deviceFilterSet (buildQuery data) store, d.platform = none ∧ d.name = n) := by
  refine ⟨_, get_job_filter_platform_error store data (platform_filter_ne_nil store data h), ?_⟩
  intro n
  exact mem_platform_offenders store data n

/-- Witness for C4: a store whose only device lacks a platform. -/
theorem claim_C4_witness :
    (∃ d ∈ deviceFilterSet (buildQuery emptyJobData)
        [mkDevice 1 "delta" none (some "10.0.0.1")], d.platform = none) ∧
    (∃ l, get_job_filter [mkDevice 1 "delta" none (some "10.0.0.1")] emptyJobData =
        .error (.missingPlatform l) ∧
      ∀ n, (n ∈ l ↔
        ∃ d ∈ deviceFilterSet (buildQuery emptyJobData)
          [mkDevice 1 "delta" none (some "10.0.0.1")], d.platform = none ∧ d.name = n)) :=
  ⟨by decide, claim_C4 [mkDevice 1 "delta" none (some "10.0.0.1")] emptyJobData (by decide)⟩

/-- C5 counterexample: with one device lacking a platform and another
lacking a management address, the single failing pass reports only the
platform offender; the device lacking only a management address is not
named, although the management-address offender set is nonempty. -/
theorem claim_C5_counterexample :
    get_job_filter c5Store emptyJobData = .error (.missingPlatform ["no-platform-device"]) ∧
    (deviceFilterSet (buildQuery emptyJobData) c5Store).filter
      (fun d => d.primary_ip4.isNone) ≠ [] :=
  ⟨rfl, by decide⟩

/-- C5 amended: each precondition check is evaluated over the full
selected set, so the raised error names every offender of its own check
(all platform offenders, or all management-address offenders once no
platform offender exists) — but the platform check fails first, so
management-address offenders are not reported in the same pass. -/
theorem claim_C5_amended (store : List DeviceRec) (data : JobData) :
    (∀ l, get_job_filter store data = .error (.missingPlatform l) →
      ∀ n, (n ∈ l ↔
        ∃ d ∈ deviceFilterSet (buildQuery data) store, d.platform = none ∧ d.name = n)) ∧
    (∀ l, get_job_filter store data = .error (.missingManagementAddress l) →
      (∀ d ∈ deviceFilterSet (buildQuery data) store, d.platform ≠ none) ∧
      ∀ n, (n ∈ l ↔
        ∃ d ∈ deviceFilterSet (buildQuery data) store, d.primary_ip4 = none ∧ d.name = n)) := by
  by_cases h1 : (deviceFilterSet (buildQuery data) store).filter
      (fun d => d.platform.isNone) = []
  · have hnone : ∀ d ∈ deviceFilterSet (buildQuery data) store, d.platform ≠ none := by
      intro d hd hp
      have := List.filter_eq_nil_iff.mp h1 d hd
      simp [hp] at this
    by_cases h2 : (deviceFilterSet (buildQuery data) store).filter
        (fun d => d.primary_ip4.isNone) = []
    · constructor
      · intro l heq
        rw [get_job_filter_ok store data h1 h2] at heq
        exact absurd heq (by simp)
      · intro l heq
        rw [get_job_filter_ok store data h1 h2] at heq
        exact absurd heq (by simp)
    · constructor
      · intro l heq
        rw [get_job_filter_ip_error store data h1 h2] at heq
        exact absurd heq (by simp)
      · intro l heq
        rw [get_job_filter_ip_error store data h1 h2] at heq
        simp only [Except.error.injEq, JobFilterError.missingManagementAddress.injEq] at heq
        subst heq
        exact ⟨hnone, fun n => mem_ip_offenders store data n⟩
  · constructor
    · intro l heq
      rw [get_job_filter_platform_error store data h1] at heq
      simp only [Except.error.injEq, JobFilterError.missingPlatform.injEq] at heq
      subst heq
      exact fun n => mem_platform_offenders store data n
    · intro l heq
      rw [get_job_filter_platform_error store data h1] at heq
      exact absurd heq (by simp)

/-- Witness for the amended C5 at a concrete failing input: the
missing-platform error of `c5Store` names exactly the platform
offenders. -/
theorem claim_C5_amended_witness :
    "no-platform-device" ∈ ["no-platform-device"] ↔
      ∃ d ∈ deviceFilterSet (buildQuery emptyJobData) c5Store,
        d.platform = none ∧ d.name = "no-platform-device" :=
  (claim_C5_amended c5Store emptyJobData).1 ["no-platform-device"]
    rfl "no-platform-device"

/-- C6 counterexample: a selected device ("beta") has a null primary
management address, yet precondition validation does not fail with the
missing-management-address error — it fails with the missing-platform
error for "alpha" — refuting the claimed "if and only if". -/
theorem claim_C6_counterexample :
    (∃ d ∈ deviceFilterSet (buildQuery emptyJobData) c6Store, d.primary_ip4 = none) ∧
    get_job_filter c6Store emptyJobData = .error (.missingPlatform ["alpha"]) :=
  ⟨by decide, rfl⟩

/-- C6 amended: provided every selected device has a platform, validation
fails with the missing-management-address error iff some selected device
has a null primary management address, and the error names exactly the
offending devices (a device with a non-null address is never named). -/
theorem claim_C6_amended (store : List DeviceRec) (data : JobData)
    (hplat : ∀ d ∈ deviceFilterSet (buildQuery data) store, d.platform ≠ none) :
    ((∃ l, get_job_filter store data = .error (.missingManagementAddress l)) ↔
      ∃ d ∈ deviceFilterSet (buildQuery data) store, d.primary_ip4 = none) ∧
    (∀ l, get_job_filter store data = .error (.missingManagementAddress l) →
      ∀ n, (n ∈ l ↔
        ∃ d ∈ deviceFilterSet (buildQuery data) store, d.primary_ip4 = none ∧ d.name = n)) := by
  have h1 : (deviceFilterSet (buildQuery data) store).filter
      (fun d => d.platform.isNone) = [] := by
    rw [List.filter_eq_nil_iff]
    intro d hd
    simp only [Option.isNone_iff_eq_none]
    exact fun hc => hplat d hd (by simpa using hc)
  constructor
  · constructor
    · rintro ⟨l, heq⟩
      by_cases h2 : (deviceFilterSet (buildQuery data) store).filter
          (fun d => d.primary_ip4.isNone) = []
      · rw [get_job_filter_ok store data h1 h2] at heq
        exact absurd heq (by simp)
      · obtain ⟨d0, hd0⟩ := List.exists_mem_of_ne_nil _ h2
        have hm := List.mem_filter.mp hd0
        exact ⟨d0, hm.1, by simpa using hm.2⟩
    · intro h
      refine ⟨_, get_job_filter_ip_error store data h1 (ip_filter_ne_nil store data h)⟩
  · intro l heq
    by_cases h2 : (deviceFilterSet (buildQuery data) store).filter
        (fun d => d.primary_ip4.isNone) = []
    · rw [get_job_filter_ok store data h1 h2] at heq
      exact absurd heq (by simp)
    · rw [get_job_filter_ip_error store data h1 h2] at heq
      simp only [Except.error.injEq, JobFilterError.missingManagementAddress.injEq] at heq
      subst heq
      exact fun n => mem_ip_offenders store data n

/-- Witness for the amended C6: every device of this store has a platform
and its only device lacks a management address, so validation fails with
the missing-management-address error. -/
theorem claim_C6_amended_witness :
    (∃ l, get_job_filter [mkDevice 6 "gamma" (some 2) none] emptyJobData =
        .error (.missingManagementAddress l)) ↔
      ∃ d ∈ deviceFilterSet (buildQuery emptyJobData) [mkDevice 6 "gamma" (some 2) none],
        d.primary_ip4 = none :=
  (claim_C6_amended [mkDevice 6 "gamma" (some 2) none] emptyJobData (by decide)).1

example : pkConstraint [] = none := by decide
example : fkMatch (some [3, 5]) (some 5) = true := by decide
example : fkMatch (some [3, 5]) none = false := by decide
example : get_os_version (.error "conn") = .ok none := rfl
example :
    create_rel 2 10 [mkDeviceSoftAssoc 1 10] =
      ([mkDeviceSoftAssoc 2 10], .created) := by decide
example :
    create_rel 2 10 [mkDeviceSoftAssoc 2 10] =
      ([mkDeviceSoftAssoc 2 10], .unchanged) := by decide
